import Mathlib

/-!
Shallow embedding of the port-exposure lifecycle of `src/shell.py`
(SimpleShell): the module-level session globals, `cleanup_upnp`,
`add_firewall_rule`, `setup_upnp`, and the `public` branch of `run_shell`,
together with the reporting loop's observable behaviour.

External effects (the `netsh` tool, the miniupnpc client) are modelled by
outcome parameters: each theorem quantifies over every outcome the external
capability can produce.  Python truthiness of the session globals is modelled
explicitly (`None` is falsy, the integer `0` is falsy, the empty string is
falsy), because `cleanup_upnp` branches on truthiness, not on `is None`.
-/

/-- Substring containment on character lists: `pat` occurs inside `s`. -/
def listContainsSub (pat : List Char) : List Char → Bool
  | [] => pat.isEmpty
  | c :: rest => List.isPrefixOf pat (c :: rest) || listContainsSub pat rest

/-- Models the Python expression `pat in s` on strings. -/
def strContains (s pat : String) : Bool :=
  listContainsSub pat.data s.data

/-- Lowercasing of one character as Python `str.lower()` performs it, on the
ASCII and Cyrillic ranges (`А..Я` maps to `а..я`, `Ѐ..Џ` to `ѐ..џ`).  Every
lowered pattern the program searches for (`exist`, `access is denied`,
`уже существует`, `отказано`) consists only of such characters, so the
containment checks agree with Python on every input: a character outside
these ranges never lowercases into the pattern alphabets. -/
def pyCharLower (c : Char) : Char :=
  if 0x410 ≤ c.toNat && c.toNat ≤ 0x42F then Char.ofNat (c.toNat + 0x20)
  else if 0x400 ≤ c.toNat && c.toNat ≤ 0x40F then Char.ofNat (c.toNat + 0x50)
  else c.toLower

/-- Models Python `str.lower()` (ASCII and Cyrillic, see `pyCharLower`). -/
def pyLower (s : String) : String :=
  ⟨s.data.map pyCharLower⟩

/-- Uppercasing of one character as Python `str.upper()` performs it, on the
ASCII and Cyrillic ranges (mirror of `pyCharLower`).  The uppercased token is
only ever compared against the ASCII strings `TCP` and `UDP`, and no
character outside these ranges uppercases into ASCII, so the comparison
agrees with Python on every input. -/
def pyCharUpper (c : Char) : Char :=
  if 0x430 ≤ c.toNat && c.toNat ≤ 0x44F then Char.ofNat (c.toNat - 0x20)
  else if 0x450 ≤ c.toNat && c.toNat ≤ 0x45F then Char.ofNat (c.toNat - 0x50)
  else c.toUpper

/-- Models Python `str.upper()` (ASCII and Cyrillic, see `pyCharUpper`). -/
def pyUpper (s : String) : String :=
  ⟨s.data.map pyCharUpper⟩

/-- The Unicode decimal-digit (general category `Nd`) ranges: each pair is
the code points of the digits `0..9` of one script, which is what Python
`int()` accepts as digits. -/
def ndRanges : List (Nat × Nat) :=
  [(0x30, 0x39), (0x660, 0x669), (0x6F0, 0x6F9), (0x7C0, 0x7C9),
   (0x966, 0x96F), (0x9E6, 0x9EF), (0xA66, 0xA6F), (0xAE6, 0xAEF),
   (0xB66, 0xB6F), (0xBE6, 0xBEF), (0xC66, 0xC6F), (0xCE6, 0xCEF),
   (0xD66, 0xD6F), (0xDE6, 0xDEF), (0xE50, 0xE59), (0xED0, 0xED9),
   (0xF20, 0xF29), (0x1040, 0x1049), (0x1090, 0x1099), (0x17E0, 0x17E9),
   (0x1810, 0x1819), (0x1946, 0x194F), (0x19D0, 0x19D9), (0x1A80, 0x1A89),
   (0x1A90, 0x1A99), (0x1B50, 0x1B59), (0x1BB0, 0x1BB9), (0x1C40, 0x1C49),
   (0x1C50, 0x1C59), (0xA620, 0xA629), (0xA8D0, 0xA8D9), (0xA900, 0xA909),
   (0xA9D0, 0xA9D9), (0xA9F0, 0xA9F9), (0xAA50, 0xAA59), (0xABF0, 0xABF9),
   (0xFF10, 0xFF19), (0x104A0, 0x104A9), (0x10D30, 0x10D39),
   (0x11066, 0x1106F), (0x110F0, 0x110F9), (0x11136, 0x1113F),
   (0x111D0, 0x111D9), (0x112F0, 0x112F9), (0x11450, 0x11459),
   (0x114D0, 0x114D9), (0x11650, 0x11659), (0x116C0, 0x116C9),
   (0x11730, 0x11739), (0x118E0, 0x118E9), (0x11950, 0x11959),
   (0x11C50, 0x11C59), (0x11D50, 0x11D59), (0x11DA0, 0x11DA9),
   (0x11F50, 0x11F59), (0x16A60, 0x16A69), (0x16AC0, 0x16AC9),
   (0x16B50, 0x16B59), (0x1D7CE, 0x1D7FF), (0x1E140, 0x1E149),
   (0x1E2F0, 0x1E2F9), (0x1E4F0, 0x1E4F9), (0x1E950, 0x1E959),
   (0x1FBF0, 0x1FBF9)]

/-- The decimal value of a character, if Python `int()` accepts it as a
digit (Unicode `Nd`). -/
def pyDigitVal (c : Char) : Option Nat :=
  (ndRanges.find? fun r => r.1 ≤ c.toNat && c.toNat ≤ r.2).map
    fun r => c.toNat - r.1

/-- Continues parsing a digit run that already produced `acc`: Python
`int()` allows a single underscore between two digits, never leading,
trailing or doubled. -/
def pyDigitsAux (acc : Nat) : List Char → Option Nat
  | [] => some acc
  | '_' :: c :: rest =>
    match pyDigitVal c with
    | some v => pyDigitsAux (acc * 10 + v) rest
    | none => none
  | ['_'] => none
  | c :: rest =>
    match pyDigitVal c with
    | some v => pyDigitsAux (acc * 10 + v) rest
    | none => none

/-- A nonempty digit run with single underscores between digits. -/
def pyIntDigits : List Char → Option Nat
  | [] => none
  | c :: rest =>
    match pyDigitVal c with
    | some v => pyDigitsAux v rest
    | none => none

/-- Models Python `int(s)` on the whitespace-free tokens produced by
`text.strip().split()` (the only strings the program passes to `int`):
an optional sign followed by decimal digits of any script, with single
underscores allowed between digits. -/
def pyInt (s : String) : Option Int :=
  match s.data with
  | '-' :: rest => (pyIntDigits rest).map fun n => -(n : Int)
  | '+' :: rest => (pyIntDigits rest).map fun n => (n : Int)
  | l => (pyIntDigits l).map fun n => (n : Int)

/-- The four module-level session globals of `shell.py`
(`upnp_instance`, `mapped_port`, `mapped_proto`, `fw_rule_name`).
The UPnP object itself is opaque; only its presence matters. -/
structure ShellState where
  upnp_instance : Option Unit
  mapped_port : Option Int
  mapped_proto : Option String
  fw_rule_name : Option String
deriving DecidableEq, Repr

/-- The initial state: all four globals are `None` (shell.py lines 19-22). -/
def initialState : ShellState := ⟨none, none, none, none⟩

/-- Python truthiness of an optional object reference: `None` is falsy. -/
def truthyOptUnit : Option Unit → Bool
  | none => false
  | some _ => true

/-- Python truthiness of an optional integer: `None` and `0` are falsy. -/
def truthyOptInt : Option Int → Bool
  | none => false
  | some n => !(n == 0)

/-- Python truthiness of an optional string: `None` and `""` are falsy. -/
def truthyOptStr : Option String → Bool
  | none => false
  | some s => !(s == "")

/-- Outcome of a call into the miniupnpc client that either returns or raises. -/
inductive PyOutcome where
  | ok
  | exc (msg : String)
deriving DecidableEq, Repr

/-- Outcome of `subprocess.run([...], check=True, ...)`: normal return,
a `CalledProcessError` carrying the tool's stderr, or any other exception
(for example `FileNotFoundError` when the tool is unavailable). -/
inductive RunOutcome where
  | ok
  | cpe (stderr : String)
  | exc (msg : String)
deriving DecidableEq, Repr

/-- `true` iff the outcome is an exception other than `CalledProcessError`. -/
def RunOutcome.isExc : RunOutcome → Bool
  | .exc _ => true
  | _ => false

/-- External capability invocations, in program order. -/
inductive ExtCall where
  | deletePortMapping (port : Int) (proto : String)
  | netshDeleteRule (name : String)
  | netshAddRule (name : String) (proto : String) (port : Int)
  | upnpDiscover
  | upnpAddPortMapping (port : Int) (proto : String)
deriving DecidableEq, Repr

/-- `true` iff the call releases the UPnP port mapping. -/
def ExtCall.isMapDel : ExtCall → Bool
  | .deletePortMapping _ _ => true
  | _ => false

/-- `true` iff the call deletes the firewall rule. -/
def ExtCall.isRuleDel : ExtCall → Bool
  | .netshDeleteRule _ => true
  | _ => false

/-- User-visible classification messages the lifecycle code prints. -/
inductive Report where
  | mappingRemoved
  | mappingAlreadyAbsent (port : Int) (proto : String)
  | mappingDeleteError (msg : String)
  | ruleRemoved
  | ruleAlreadyAbsent (name : String)
  | ruleDeleteError (stderr : String)
  | ruleAdded
  | ruleSoftWarning (stderr : String)
  | ruleAddError (stderr : String)
deriving DecidableEq, Repr

/-- Classification test on shell.py line 34: `'NoSuchEntryInArray' in str(e)`. -/
def noSuchEntry (msg : String) : Bool :=
  strContains msg "NoSuchEntryInArray"

/-- Classification test on shell.py line 52: the "no rules match" stderr
patterns (English and Russian). -/
def noRulesMatch (stderr : String) : Bool :=
  strContains stderr "No rules match the specified criteria" ||
  strContains stderr "Ни одно правило не соответствует"

/-- Result of one step (or one whole call) of the teardown code: the new
state, the external calls made, the classification messages printed, and
the exception propagated out, if any. -/
structure StepResult where
  state : ShellState
  calls : List ExtCall
  reports : List Report
  raised : Option String
deriving DecidableEq, Repr

/-- shell.py lines 28-41: the mapping branch of `cleanup_upnp`.
Runs when `upnp_instance and mapped_port and mapped_proto` is truthy;
every exception from `deleteportmapping` is caught; the `finally` block
clears the three mapping globals whenever the branch body runs. -/
def cleanupMappingStep (s : ShellState) (mapOut : PyOutcome) : StepResult :=
  match s.upnp_instance, s.mapped_port, s.mapped_proto with
  | some _, some port, some proto =>
    if port == 0 || proto == "" then ⟨s, [], [], none⟩
    else
      let rep :=
        match mapOut with
        | .ok => Report.mappingRemoved
        | .exc msg =>
          if noSuchEntry msg then Report.mappingAlreadyAbsent port proto
          else Report.mappingDeleteError msg
      ⟨{ s with upnp_instance := none, mapped_port := none, mapped_proto := none },
       [ExtCall.deletePortMapping port proto], [rep], none⟩
  | _, _, _ => ⟨s, [], [], none⟩

/-- shell.py lines 42-57: the firewall-rule branch of `cleanup_upnp`.
Runs when `fw_rule_name` is truthy; only `subprocess.CalledProcessError`
is caught, any other exception propagates; the `finally` block clears
`fw_rule_name` whenever the branch body runs. -/
def cleanupRuleStep (s : ShellState) (ruleOut : RunOutcome) : StepResult :=
  match s.fw_rule_name with
  | some name =>
    if name == "" then ⟨s, [], [], none⟩
    else
      match ruleOut with
      | .ok =>
        ⟨{ s with fw_rule_name := none },
         [ExtCall.netshDeleteRule name], [Report.ruleRemoved], none⟩
      | .cpe stderr =>
        let rep :=
          if noRulesMatch stderr then Report.ruleAlreadyAbsent name
          else Report.ruleDeleteError stderr
        ⟨{ s with fw_rule_name := none },
         [ExtCall.netshDeleteRule name], [rep], none⟩
      | .exc msg =>
        ⟨{ s with fw_rule_name := none },
         [ExtCall.netshDeleteRule name], [], some msg⟩
  | none => ⟨s, [], [], none⟩

/-- shell.py lines 24-57: `cleanup_upnp`.  Returns immediately when
`not any([upnp_instance, fw_rule_name])`; otherwise runs the mapping
branch and then the rule branch.  `mapOut` is the outcome of
`upnp_instance.deleteportmapping(...)` and `ruleOut` the outcome of the
`netsh ... delete rule` invocation, each consulted only if the
corresponding call is actually made. -/
def cleanup_upnp (s : ShellState) (mapOut : PyOutcome) (ruleOut : RunOutcome) :
    StepResult :=
  if !(truthyOptUnit s.upnp_instance || truthyOptStr s.fw_rule_name) then
    ⟨s, [], [], none⟩
  else
    let m := cleanupMappingStep s mapOut
    let r := cleanupRuleStep m.state ruleOut
    ⟨r.state, m.calls ++ r.calls, m.reports ++ r.reports, r.raised⟩

/-- Results of successive `cleanup_upnp` calls, one outcome pair per call,
with no intervening exposure setup. -/
def cleanupSeq : ShellState → List (PyOutcome × RunOutcome) → List StepResult
  | _, [] => []
  | s, (mo, ro) :: rest =>
    let r := cleanup_upnp s mo ro
    r :: cleanupSeq r.state rest

/-- The mapping state is present in the Python-truthiness sense used by the
mapping branch of `cleanup_upnp`. -/
def mappingTruthy (s : ShellState) : Bool :=
  truthyOptUnit s.upnp_instance && truthyOptInt s.mapped_port &&
    truthyOptStr s.mapped_proto

/-- The rule state is present in the Python-truthiness sense used by the
rule branch of `cleanup_upnp`. -/
def ruleTruthy (s : ShellState) : Bool :=
  truthyOptStr s.fw_rule_name

/-- shell.py line 82: the deterministic firewall rule name
`f"MiniShell_{port}_{proto}"`. -/
def ruleName (port : Int) (proto : String) : String :=
  "MiniShell_" ++ (toString port ++ ("_" ++ proto))

/-- Classification test on shell.py line 95: the soft-success stderr patterns
(`exist`, `уже существует`, `access is denied`, `отказано`). -/
def softAddRule (stderr : String) : Bool :=
  strContains (pyLower stderr) "exist" ||
  strContains stderr "уже существует" ||
  strContains (pyLower stderr) "access is denied" ||
  strContains (pyLower stderr) "отказано"

/-- Result of `add_firewall_rule`: new state, calls, messages, and the
returned boolean (`none` models an exception propagating out of the
function, since only `CalledProcessError` is caught). -/
structure AddRuleResult where
  state : ShellState
  calls : List ExtCall
  reports : List Report
  result : Option Bool
deriving DecidableEq, Repr

/-- shell.py lines 80-100: `add_firewall_rule(port, proto)`.  The global
`fw_rule_name` is assigned before the tool is invoked and is not cleared on
any failure path.  A `CalledProcessError` whose stderr matches the soft
patterns returns `True`; any other `CalledProcessError` returns `False`;
any other exception propagates. -/
def add_firewall_rule (s : ShellState) (port : Int) (proto : String)
    (out : RunOutcome) : AddRuleResult :=
  let name := ruleName port proto
  let s1 := { s with fw_rule_name := some name }
  let call := ExtCall.netshAddRule name proto port
  match out with
  | .ok => ⟨s1, [call], [Report.ruleAdded], some true⟩
  | .cpe stderr =>
    if softAddRule stderr then ⟨s1, [call], [Report.ruleSoftWarning stderr], some true⟩
    else ⟨s1, [call], [Report.ruleAddError stderr], some false⟩
  | .exc _ => ⟨s1, [call], [], none⟩

/-- Outcome of one call into the miniupnpc client that returns a value of
type `α` or raises. -/
inductive PyRes (α : Type) where
  | ok (a : α)
  | exc (msg : String)
deriving DecidableEq, Repr

/-- The behaviour of the external UPnP environment during one `setup_upnp`
call: what `discover`, `selectigd`, `externalipaddress` and
`addportmapping` each do if invoked. -/
structure UpnpEnv where
  discover : PyRes Nat
  selectigd : PyRes Unit
  externalip : PyRes String
  addmapping : PyRes Bool
deriving DecidableEq, Repr

/-- Result of `setup_upnp`: new state, calls, and the returned pair
(`none` models the `(None, None)` return). -/
structure SetupResult where
  state : ShellState
  calls : List ExtCall
  value : Option (String × Int)
deriving DecidableEq, Repr

/-- shell.py lines 110-132: `setup_upnp(port, proto)`.  The three mapping
globals are assigned only after `addportmapping` returns a truthy value;
every exception is caught and yields `(None, None)` with no state change. -/
def setup_upnp (s : ShellState) (port : Int) (proto : String) (env : UpnpEnv) :
    SetupResult :=
  match env.discover with
  | .exc _ => ⟨s, [ExtCall.upnpDiscover], none⟩
  | .ok devices =>
    if devices == 0 then ⟨s, [ExtCall.upnpDiscover], none⟩
    else
      match env.selectigd with
      | .exc _ => ⟨s, [ExtCall.upnpDiscover], none⟩
      | .ok _ =>
        match env.externalip with
        | .exc _ => ⟨s, [ExtCall.upnpDiscover], none⟩
        | .ok ip =>
          match env.addmapping with
          | .exc _ => ⟨s, [ExtCall.upnpDiscover, ExtCall.upnpAddPortMapping port proto], none⟩
          | .ok b =>
            if b then
              ⟨{ s with upnp_instance := some (), mapped_port := some port,
                        mapped_proto := some proto },
               [ExtCall.upnpDiscover, ExtCall.upnpAddPortMapping port proto],
               some (ip, port)⟩
            else
              ⟨s, [ExtCall.upnpDiscover, ExtCall.upnpAddPortMapping port proto], none⟩

/-- Everything after the first character list of a Python
`p.split(':', 1)[1]`: the characters after the first colon, if any. -/
def afterColon : List Char → Option (List Char)
  | [] => none
  | ':' :: rest => some rest
  | _ :: rest => afterColon rest

/-- shell.py lines 218-223: parse one parameter token: if it starts with
`--port:`, Python takes `int(p.split(':', 1)[1])`, keeping the previous
value on `ValueError`. -/
def parsePortToken (p : String) : Option Int :=
  if List.isPrefixOf "--port:".data p.data then
    match afterColon p.data with
    | some restChars => pyInt ⟨restChars⟩
    | none => none
  else none

/-- shell.py lines 217-223: the scan of `params[1:]` for `--port:` tokens;
the last successfully parsed one wins. -/
def findPort (params : List String) : Option Int :=
  params.foldl
    (fun acc p =>
      match parsePortToken p with
      | some n => some n
      | none => acc)
    none

/-- How the `public` command branch concluded. -/
inductive PublicOutcome where
  | usage
  | badProto
  | badPort
  | fwHardFail
  | fwRaised
  | upnpFail
  | exposedOk (ip : String) (port : Int)
deriving DecidableEq, Repr

/-- Result of the `public` command branch: new state, calls made, and how
the branch concluded. -/
structure PublicResult where
  state : ShellState
  calls : List ExtCall
  outcome : PublicOutcome
deriving DecidableEq, Repr

/-- shell.py lines 209-236: the `elif command == "public"` branch of
`run_shell` up to the moment the reporting loop is entered (or the branch
falls through with `continue`).  `params` is the argument token list,
`fwOut` the outcome of the `netsh ... add rule` invocation, `env` the
behaviour of the UPnP environment. -/
def run_public (s : ShellState) (params : List String) (fwOut : RunOutcome)
    (env : UpnpEnv) : PublicResult :=
  if params.length < 2 then ⟨s, [], PublicOutcome.usage⟩
  else
    let proto := pyUpper (params.headD "")
    if !(proto == "TCP" || proto == "UDP") then ⟨s, [], PublicOutcome.badProto⟩
    else
      match findPort params.tail with
      | none => ⟨s, [], PublicOutcome.badPort⟩
      | some port =>
        let fw := add_firewall_rule s port proto fwOut
        match fw.result with
        | none => ⟨fw.state, fw.calls, PublicOutcome.fwRaised⟩
        | some false => ⟨fw.state, fw.calls, PublicOutcome.fwHardFail⟩
        | some true =>
          let su := setup_upnp fw.state port proto env
          match su.value with
          | none => ⟨su.state, fw.calls ++ su.calls, PublicOutcome.upnpFail⟩
          | some (ip, p) => ⟨su.state, fw.calls ++ su.calls, PublicOutcome.exposedOk ip p⟩

/-- An event delivered while the reporting loop (shell.py lines 238-246)
is running: an asynchronous interrupt, or a line of text typed at the
terminal. -/
inductive LoopEvent where
  | interrupt
  | typed (line : String)
deriving DecidableEq, Repr

/-- One action of the reporting loop body (shell.py lines 239-243). -/
inductive LoopAction where
  | sleepTen
  | clearScreen
  | printAddress
  | printHint
deriving DecidableEq, Repr

/-- The body of the reporting loop, in order: `time.sleep(10)`, clear the
screen, print the public address, print the exit hint. -/
def reportingLoopBody : List LoopAction :=
  [LoopAction.sleepTen, LoopAction.clearScreen, LoopAction.printAddress,
   LoopAction.printHint]

/-- Whether a loop-body action reads a line from standard input.  None of
the four actions does: the loop sleeps and prints only. -/
def consumesInput : LoopAction → Bool
  | LoopAction.sleepTen => false
  | LoopAction.clearScreen => false
  | LoopAction.printAddress => false
  | LoopAction.printHint => false

/-- Whether an event delivered during the reporting loop terminates it.
An interrupt is caught by the enclosing `except KeyboardInterrupt` and
breaks out (line 244-246); a typed line can terminate the loop only if
some body action consumes input and the line is the exit command. -/
def exitsReportingLoop : LoopEvent → Bool
  | LoopEvent.interrupt => true
  | LoopEvent.typed line =>
    reportingLoopBody.any consumesInput && line == "exit"

/-- The exit hint the reporting loop prints every iteration
(shell.py line 243). -/
def reportingHint : String :=
  "[info] Нажмите Ctrl+C или введите exit для выхода."

/-- Whether `add_firewall_rule` reports success for a given tool outcome:
a fresh success, or a `CalledProcessError` classified as soft. -/
def addRuleOk : RunOutcome → Bool
  | RunOutcome.ok => true
  | RunOutcome.cpe stderr => softAddRule stderr
  | RunOutcome.exc _ => false

/-- The conditions under which the `public` command branch stops before
invoking any external capability: too few parameters, a protocol other than
TCP/UDP (case-insensitively), or no parameter that parses as
`--port:<integer>`. -/
def publicValidationFails (params : List String) : Bool :=
  if params.length < 2 then true
  else if !(pyUpper (params.headD "") == "TCP" ||
            pyUpper (params.headD "") == "UDP") then true
  else (findPort params.tail).isNone

/-- The session states arising in straight-line runs: the three mapping
globals are set together with a nonzero port and nonempty protocol or not at
all, and the rule name, when set, is nonempty. -/
def sessionCoherent (s : ShellState) : Bool :=
  (match s.upnp_instance, s.mapped_port, s.mapped_proto with
   | none, none, none => true
   | some _, some p, some pr => !(p == 0) && !(pr == "")
   | _, _, _ => false) &&
  (match s.fw_rule_name with
   | none => true
   | some n => !(n == ""))

/-- The mapping branch runs exactly when the mapping state is
truthy-present; when it runs it clears the three mapping globals and emits
the single mapping release call; otherwise it changes nothing. -/
theorem cleanupMappingStep_spec (s : ShellState) (mo : PyOutcome) :
    (cleanupMappingStep s mo).state =
      (if mappingTruthy s then
        { s with upnp_instance := none, mapped_port := none, mapped_proto := none }
       else s) ∧
    (cleanupMappingStep s mo).calls.any ExtCall.isMapDel = mappingTruthy s ∧
    (cleanupMappingStep s mo).calls.any ExtCall.isRuleDel = false ∧
    (cleanupMappingStep s mo).raised = none := by
  obtain ⟨u, p, pr, f⟩ := s
  cases u <;> cases p <;> cases pr <;>
    simp only [cleanupMappingStep, mappingTruthy, truthyOptUnit, truthyOptInt,
      truthyOptStr] <;>
    (try split_ifs) <;>
    simp_all [ExtCall.isMapDel, ExtCall.isRuleDel]

/-- The rule branch runs exactly when the rule state is truthy-present;
when it runs it clears `fw_rule_name` and emits the single rule deletion
call; otherwise it changes nothing.  It raises exactly when it runs and
the tool invocation fails with an exception other than
`CalledProcessError`. -/
theorem cleanupRuleStep_spec (s : ShellState) (ro : RunOutcome) :
    (cleanupRuleStep s ro).state =
      (if ruleTruthy s then { s with fw_rule_name := none } else s) ∧
    (cleanupRuleStep s ro).calls.any ExtCall.isRuleDel = ruleTruthy s ∧
    (cleanupRuleStep s ro).calls.any ExtCall.isMapDel = false ∧
    (cleanupRuleStep s ro).raised =
      (if ruleTruthy s && RunOutcome.isExc ro then
        match ro with | RunOutcome.exc msg => some msg | _ => none
       else none) := by
  obtain ⟨u, p, pr, f⟩ := s
  cases f <;> cases ro <;>
    simp only [cleanupRuleStep, ruleTruthy, truthyOptStr, RunOutcome.isExc] <;>
    (try split_ifs) <;>
    simp_all [ExtCall.isMapDel, ExtCall.isRuleDel]

/-- When the mapping state is not truthy-present, the mapping branch is a
complete no-op. -/
theorem cleanupMappingStep_noop (s : ShellState) (mo : PyOutcome)
    (h : mappingTruthy s = false) :
    cleanupMappingStep s mo = ⟨s, [], [], none⟩ := by
  obtain ⟨u, p, pr, f⟩ := s
  cases u <;> cases p <;> cases pr <;>
    simp_all [cleanupMappingStep, mappingTruthy, truthyOptUnit, truthyOptInt,
      truthyOptStr]

/-- When the rule state is not truthy-present, the rule branch is a
complete no-op. -/
theorem cleanupRuleStep_noop (s : ShellState) (ro : RunOutcome)
    (h : ruleTruthy s = false) :
    cleanupRuleStep s ro = ⟨s, [], [], none⟩ := by
  obtain ⟨u, p, pr, f⟩ := s
  cases f <;>
    simp_all [cleanupRuleStep, ruleTruthy, truthyOptStr]

/-- One `cleanup_upnp` call performs the mapping release exactly when the
mapping state is truthy-present, performs the rule deletion exactly when the
rule state is truthy-present, and leaves a state in which neither field is
truthy-present any more. -/
theorem cleanup_upnp_calls_and_clears (s : ShellState) (mo : PyOutcome)
    (ro : RunOutcome) :
    (cleanup_upnp s mo ro).calls.any ExtCall.isMapDel = mappingTruthy s ∧
    (cleanup_upnp s mo ro).calls.any ExtCall.isRuleDel = ruleTruthy s ∧
    mappingTruthy (cleanup_upnp s mo ro).state = false ∧
    ruleTruthy (cleanup_upnp s mo ro).state = false := by
  obtain ⟨hms, hmc1, hmc2, hmr⟩ := cleanupMappingStep_spec s mo
  obtain ⟨hrs, hrc1, hrc2, hrr⟩ :=
    cleanupRuleStep_spec (cleanupMappingStep s mo).state ro
  have hfw : (cleanupMappingStep s mo).state.fw_rule_name = s.fw_rule_name := by
    rw [hms]; split_ifs <;> rfl
  have hrt : ruleTruthy (cleanupMappingStep s mo).state = ruleTruthy s := by
    simp [ruleTruthy, hfw]
  have hmt : mappingTruthy (cleanupMappingStep s mo).state = false := by
    rw [hms]; split_ifs with hh
    · simp [mappingTruthy, truthyOptUnit]
    · simpa using hh
  by_cases hg : (truthyOptUnit s.upnp_instance || truthyOptStr s.fw_rule_name) = true
  · simp only [cleanup_upnp, hg, Bool.not_true, Bool.false_eq_true, if_false]
    refine ⟨?_, ?_, ?_, ?_⟩
    · simp [List.any_append, hmc1, hrc2]
    · simp [List.any_append, hmc2, hrc1, hrt]
    · rw [hrs]; split_ifs <;> simp_all [mappingTruthy]
    · rw [hrs]; split_ifs with hh
      · simp [ruleTruthy, truthyOptStr]
      · simpa using hh
  · have hg2 : (truthyOptUnit s.upnp_instance || truthyOptStr s.fw_rule_name) = false := by
      simpa using hg
    have hu : truthyOptUnit s.upnp_instance = false := by
      cases hb : truthyOptUnit s.upnp_instance <;> simp_all
    have hf : truthyOptStr s.fw_rule_name = false := by
      cases hb : truthyOptStr s.fw_rule_name <;> simp_all
    simp [cleanup_upnp, hg2, mappingTruthy, ruleTruthy, hu, hf]

/-- When neither field is truthy-present, `cleanup_upnp` changes nothing,
makes no external call, prints nothing and raises nothing. -/
theorem cleanup_upnp_noop (s : ShellState) (mo : PyOutcome) (ro : RunOutcome)
    (h1 : mappingTruthy s = false) (h2 : ruleTruthy s = false) :
    cleanup_upnp s mo ro = ⟨s, [], [], none⟩ := by
  simp [cleanup_upnp, cleanupMappingStep_noop s mo h1, cleanupRuleStep_noop s ro h2]

/-- Starting from a state in which neither field is truthy-present, every
call of a teardown sequence makes no external call at all. -/
theorem cleanupSeq_all_empty (outs : List (PyOutcome × RunOutcome))
    (s : ShellState) (h1 : mappingTruthy s = false) (h2 : ruleTruthy s = false) :
    ((cleanupSeq s outs).all fun r => r.calls.isEmpty) = true := by
  induction outs generalizing s with
  | nil => rfl
  | cons o rest ih =>
    obtain ⟨mo, ro⟩ := o
    rw [cleanupSeq]
    rw [cleanup_upnp_noop s mo ro h1 h2]
    simp only [List.all_cons, List.isEmpty_nil, Bool.true_and]
    exact ih s h1 h2

/-- The deterministic rule name is never the empty string, hence always
truthy to the rule-deletion branch. -/
theorem ruleName_beq_empty_false (port : Int) (proto : String) :
    (ruleName port proto == "") = false := by
  simp only [beq_eq_false_iff_ne, ne_eq]
  intro h
  rw [ruleName, String.congr_append] at h
  have hd := congrArg String.data h
  simp only [String.data] at hd
  exact absurd (List.append_eq_nil.mp hd).1 (by decide)

/-- C1: in any sequence of `cleanup_upnp` calls with no intervening exposure
setup, the first call performs the mapping release exactly when it finds the
mapping state present and the rule deletion exactly when it finds the rule
state present, and every subsequent call performs no external release call at
all, because each field is cleared when first taken. -/
theorem C1_teardown_release_once (s : ShellState) (mo : PyOutcome)
    (ro : RunOutcome) (outs : List (PyOutcome × RunOutcome)) :
    (cleanup_upnp s mo ro).calls.any ExtCall.isMapDel = mappingTruthy s ∧
    (cleanup_upnp s mo ro).calls.any ExtCall.isRuleDel = ruleTruthy s ∧
    ((cleanupSeq (cleanup_upnp s mo ro).state outs).all fun r =>
      r.calls.isEmpty) = true := by
  obtain ⟨h1, h2, h3, h4⟩ := cleanup_upnp_calls_and_clears s mo ro
  exact ⟨h1, h2, cleanupSeq_all_empty outs _ h3 h4⟩

/-- C2 fails as stated: with only the firewall rule recorded, a
rule-deletion tool invocation that raises an exception other than
`CalledProcessError` (for example `FileNotFoundError` because the external
tool is unavailable) propagates out of `cleanup_upnp` instead of returning
normally. -/
theorem C2_counterexample :
    (cleanup_upnp ⟨none, none, none, some "MiniShell_8080_TCP"⟩ PyOutcome.ok
      (RunOutcome.exc "FileNotFoundError: netsh")).raised =
      some "FileNotFoundError: netsh" := by decide

/-- C2 amended: `cleanup_upnp` returns normally for every session state,
every outcome of the mapping deletion, and every rule-deletion outcome that
is either a success or a tool-reported `CalledProcessError`; only an
unclassified exception from launching the rule-deletion tool itself
propagates. -/
theorem C2_cleanup_never_raises (s : ShellState) (mo : PyOutcome)
    (ro : RunOutcome) (h : RunOutcome.isExc ro = false) :
    (cleanup_upnp s mo ro).raised = none := by
  obtain ⟨-, -, -, hrr⟩ := cleanupRuleStep_spec (cleanupMappingStep s mo).state ro
  unfold cleanup_upnp
  split_ifs with hg
  · rfl
  · simp [hrr, h]

/-- Witness for the amended C2 theorem: a populated session whose mapping
deletion raises and whose rule deletion fails with a `CalledProcessError`
still returns normally. -/
theorem C2_cleanup_never_raises_witness :
    (cleanup_upnp ⟨some (), some 8080, some "TCP", some "MiniShell_8080_TCP"⟩
      (PyOutcome.exc "oops") (RunOutcome.cpe "boom")).raised = none :=
  C2_cleanup_never_raises _ _ _ (by decide)

/-- C5: the reporting loop's own exit hint tells the user to type `exit`,
yet the loop body never reads input, so a typed `exit` line does not leave
the loop; only the interrupt does. -/
theorem C5_reporting_loop_ignores_exit :
    strContains reportingHint "введите exit" = true ∧
    exitsReportingLoop (LoopEvent.typed "exit") = false ∧
    exitsReportingLoop LoopEvent.interrupt = true := by decide

/-- C7: a soft-success `CalledProcessError` (stderr matching the
already-exists / access-denied patterns) and a fresh success both return
`True`, leave the session's rule field populated with the same deterministic
name, and lead to an identical later rule-deletion invocation. -/
theorem C7_soft_success_equivalence (s : ShellState) (port : Int)
    (proto stderr : String) (ro : RunOutcome)
    (hsoft : softAddRule stderr = true) :
    (add_firewall_rule s port proto RunOutcome.ok).result = some true ∧
    (add_firewall_rule s port proto (RunOutcome.cpe stderr)).result = some true ∧
    (add_firewall_rule s port proto RunOutcome.ok).state.fw_rule_name =
      some (ruleName port proto) ∧
    (add_firewall_rule s port proto (RunOutcome.cpe stderr)).state =
      (add_firewall_rule s port proto RunOutcome.ok).state ∧
    (cleanupRuleStep (add_firewall_rule s port proto (RunOutcome.cpe stderr)).state ro).calls =
      [ExtCall.netshDeleteRule (ruleName port proto)] ∧
    (cleanupRuleStep (add_firewall_rule s port proto RunOutcome.ok).state ro).calls =
      [ExtCall.netshDeleteRule (ruleName port proto)] := by
  cases ro <;>
    simp [add_firewall_rule, cleanupRuleStep, hsoft, ruleName_beq_empty_false]

/-- Witness for the C7 theorem at the Russian permission-denied stderr,
which line 95 soft-accepts via `.lower()`. -/
theorem C7_soft_success_equivalence_witness :
    (add_firewall_rule initialState 8080 "TCP" RunOutcome.ok).result = some true ∧
    (add_firewall_rule initialState 8080 "TCP"
      (RunOutcome.cpe "Отказано в доступе.")).result = some true ∧
    (add_firewall_rule initialState 8080 "TCP" RunOutcome.ok).state.fw_rule_name =
      some (ruleName 8080 "TCP") ∧
    (add_firewall_rule initialState 8080 "TCP"
      (RunOutcome.cpe "Отказано в доступе.")).state =
      (add_firewall_rule initialState 8080 "TCP" RunOutcome.ok).state ∧
    (cleanupRuleStep (add_firewall_rule initialState 8080 "TCP"
      (RunOutcome.cpe "Отказано в доступе.")).state RunOutcome.ok).calls =
      [ExtCall.netshDeleteRule (ruleName 8080 "TCP")] ∧
    (cleanupRuleStep (add_firewall_rule initialState 8080 "TCP"
      RunOutcome.ok).state RunOutcome.ok).calls =
      [ExtCall.netshDeleteRule (ruleName 8080 "TCP")] :=
  C7_soft_success_equivalence initialState 8080 "TCP"
    "Отказано в доступе." RunOutcome.ok (by decide)

/-- C4 fails as stated: `-5` is not a positive integer, yet
`public TCP --port:-5` passes validation, invokes the firewall tool and the
gateway client, and records state. -/
theorem C4_counterexample :
    run_public initialState ["TCP", "--port:-5"] RunOutcome.ok
      ⟨PyRes.ok 1, PyRes.ok (), PyRes.ok "203.0.113.7", PyRes.ok true⟩ =
    ⟨⟨some (), some (-5), some "TCP", some "MiniShell_-5_TCP"⟩,
     [ExtCall.netshAddRule "MiniShell_-5_TCP" "TCP" (-5), ExtCall.upnpDiscover,
      ExtCall.upnpAddPortMapping (-5) "TCP"],
     PublicOutcome.exposedOk "203.0.113.7" (-5)⟩ := by decide

/-- C4 amended: when the `public` arguments fail the code's validation —
too few parameters, a protocol other than TCP/UDP (case-insensitively), or a
port argument that is missing or does not parse as an integer (positivity is
not checked) — a usage/validation message is reported, the session state is
unchanged, and no external capability is invoked. -/
theorem C4_validation_side_effect_free (s : ShellState) (params : List String)
    (fwOut : RunOutcome) (env : UpnpEnv)
    (h : publicValidationFails params = true) :
    (run_public s params fwOut env).state = s ∧
    (run_public s params fwOut env).calls = [] ∧
    ((run_public s params fwOut env).outcome = PublicOutcome.usage ∨
     (run_public s params fwOut env).outcome = PublicOutcome.badProto ∨
     (run_public s params fwOut env).outcome = PublicOutcome.badPort) := by
  unfold publicValidationFails at h
  simp only [run_public]
  by_cases hl : params.length < 2
  · rw [if_pos hl]
    exact ⟨rfl, rfl, Or.inl rfl⟩
  · rw [if_neg hl] at h
    rw [if_neg hl]
    by_cases hpr : (!(pyUpper (params.headD "") == "TCP" ||
        pyUpper (params.headD "") == "UDP")) = true
    · rw [if_pos hpr]
      exact ⟨rfl, rfl, Or.inr (Or.inl rfl)⟩
    · rw [if_neg hpr] at h
      rw [if_neg hpr]
      cases hf : findPort params.tail with
      | none => simp [hf]
      | some port => rw [hf] at h; simp at h

/-- Witness for the amended C4 theorem: `public ICMP --port:80` changes
nothing and calls nothing. -/
theorem C4_validation_side_effect_free_witness :
    (run_public initialState ["ICMP", "--port:80"] RunOutcome.ok
      ⟨PyRes.ok 1, PyRes.ok (), PyRes.ok "203.0.113.7", PyRes.ok true⟩).state =
      initialState ∧
    (run_public initialState ["ICMP", "--port:80"] RunOutcome.ok
      ⟨PyRes.ok 1, PyRes.ok (), PyRes.ok "203.0.113.7", PyRes.ok true⟩).calls = [] ∧
    ((run_public initialState ["ICMP", "--port:80"] RunOutcome.ok
      ⟨PyRes.ok 1, PyRes.ok (), PyRes.ok "203.0.113.7", PyRes.ok true⟩).outcome =
        PublicOutcome.usage ∨
     (run_public initialState ["ICMP", "--port:80"] RunOutcome.ok
      ⟨PyRes.ok 1, PyRes.ok (), PyRes.ok "203.0.113.7", PyRes.ok true⟩).outcome =
        PublicOutcome.badProto ∨
     (run_public initialState ["ICMP", "--port:80"] RunOutcome.ok
      ⟨PyRes.ok 1, PyRes.ok (), PyRes.ok "203.0.113.7", PyRes.ok true⟩).outcome =
        PublicOutcome.badPort) :=
  C4_validation_side_effect_free initialState ["ICMP", "--port:80"]
    RunOutcome.ok ⟨PyRes.ok 1, PyRes.ok (), PyRes.ok "203.0.113.7", PyRes.ok true⟩
    (by decide)

/-- C3 fails as stated: after a hard firewall failure the exposure aborts,
but the session's rule field is already populated with the deterministic
name, not absent as claimed. -/
theorem C3_counterexample :
    (run_public initialState ["TCP", "--port:8080"] (RunOutcome.cpe "boom")
      ⟨PyRes.ok 1, PyRes.ok (), PyRes.ok "203.0.113.7", PyRes.ok true⟩).outcome =
      PublicOutcome.fwHardFail ∧
    (run_public initialState ["TCP", "--port:8080"] (RunOutcome.cpe "boom")
      ⟨PyRes.ok 1, PyRes.ok (), PyRes.ok "203.0.113.7", PyRes.ok true⟩).state.fw_rule_name =
      some "MiniShell_8080_TCP" := by decide

/-- C3 amended: on a hard firewall failure the `public` command aborts —
no gateway call is made and the mapping fields remain absent — but
`fw_rule_name` was assigned before the tool invocation and is left populated
with `MiniShell_<port>_<PROTOCOL>` rather than remaining absent. -/
theorem C3_hard_failure_aborts (s : ShellState) (params : List String)
    (stderr : String) (env : UpnpEnv) (port : Int)
    (h1 : s.upnp_instance = none) (h2 : s.mapped_port = none)
    (h3 : s.mapped_proto = none)
    (hlen : ¬ params.length < 2)
    (hproto : pyUpper (params.headD "") = "TCP" ∨ pyUpper (params.headD "") = "UDP")
    (hport : findPort params.tail = some port)
    (hhard : softAddRule stderr = false) :
    (run_public s params (RunOutcome.cpe stderr) env).outcome =
      PublicOutcome.fwHardFail ∧
    (run_public s params (RunOutcome.cpe stderr) env).calls =
      [ExtCall.netshAddRule (ruleName port (pyUpper (params.headD "")))
        (pyUpper (params.headD "")) port] ∧
    (run_public s params (RunOutcome.cpe stderr) env).state.upnp_instance = none ∧
    (run_public s params (RunOutcome.cpe stderr) env).state.mapped_port = none ∧
    (run_public s params (RunOutcome.cpe stderr) env).state.mapped_proto = none ∧
    (run_public s params (RunOutcome.cpe stderr) env).state.fw_rule_name =
      some (ruleName port (pyUpper (params.headD ""))) := by
  simp only [run_public]
  rcases hproto with hp | hp <;> rw [hp] <;>
    simp [hlen, hport, hhard, add_firewall_rule, h1, h2, h3]

/-- Witness for the amended C3 theorem: `public udp --port:9000` with a hard
tool failure. -/
theorem C3_hard_failure_aborts_witness :
    (run_public initialState ["udp", "--port:9000"]
      (RunOutcome.cpe "The parameter is incorrect.")
      ⟨PyRes.ok 1, PyRes.ok (), PyRes.ok "203.0.113.7", PyRes.ok true⟩).outcome =
      PublicOutcome.fwHardFail ∧
    (run_public initialState ["udp", "--port:9000"]
      (RunOutcome.cpe "The parameter is incorrect.")
      ⟨PyRes.ok 1, PyRes.ok (), PyRes.ok "203.0.113.7", PyRes.ok true⟩).calls =
      [ExtCall.netshAddRule (ruleName 9000 (pyUpper (["udp", "--port:9000"].headD "")))
        (pyUpper (["udp", "--port:9000"].headD "")) 9000] ∧
    (run_public initialState ["udp", "--port:9000"]
      (RunOutcome.cpe "The parameter is incorrect.")
      ⟨PyRes.ok 1, PyRes.ok (), PyRes.ok "203.0.113.7", PyRes.ok true⟩).state.upnp_instance =
      none ∧
    (run_public initialState ["udp", "--port:9000"]
      (RunOutcome.cpe "The parameter is incorrect.")
      ⟨PyRes.ok 1, PyRes.ok (), PyRes.ok "203.0.113.7", PyRes.ok true⟩).state.mapped_port =
      none ∧
    (run_public initialState ["udp", "--port:9000"]
      (RunOutcome.cpe "The parameter is incorrect.")
      ⟨PyRes.ok 1, PyRes.ok (), PyRes.ok "203.0.113.7", PyRes.ok true⟩).state.mapped_proto =
      none ∧
    (run_public initialState ["udp", "--port:9000"]
      (RunOutcome.cpe "The parameter is incorrect.")
      ⟨PyRes.ok 1, PyRes.ok (), PyRes.ok "203.0.113.7", PyRes.ok true⟩).state.fw_rule_name =
      some (ruleName 9000 (pyUpper (["udp", "--port:9000"].headD ""))) :=
  C3_hard_failure_aborts initialState ["udp", "--port:9000"]
    "The parameter is incorrect."
    ⟨PyRes.ok 1, PyRes.ok (), PyRes.ok "203.0.113.7", PyRes.ok true⟩ 9000
    rfl rfl rfl (by decide) (by decide) (by decide) (by decide)

/-- A fully recorded exposure state: both deletions are attempted by one
teardown call, mapping first, rule second, for every pair of deletion
outcomes. -/
theorem cleanup_full_calls (port : Int) (proto name : String)
    (mo : PyOutcome) (ro : RunOutcome)
    (hp : (port == 0) = false) (hq : (proto == "") = false)
    (hn : (name == "") = false) :
    (cleanup_upnp ⟨some (), some port, some proto, some name⟩ mo ro).calls =
      [ExtCall.deletePortMapping port proto, ExtCall.netshDeleteRule name] := by
  cases mo <;> cases ro <;>
    simp [cleanup_upnp, cleanupMappingStep, cleanupRuleStep, truthyOptUnit,
      truthyOptStr, hp, hq, hn]

/-- A `public` invocation that passes validation and whose firewall and
gateway interactions all succeed records exactly the deterministic rule name
and the mapping triple, and makes the add-rule, discover and add-mapping
calls in order. -/
theorem run_public_success (s : ShellState) (params : List String)
    (fwOut : RunOutcome) (env : UpnpEnv) (port : Int) (d : Nat) (ip : String)
    (proto' : String)
    (hlen : ¬ params.length < 2)
    (hp : pyUpper (params.headD "") = proto')
    (hvalid : (proto' == "TCP" || proto' == "UDP") = true)
    (hport : findPort params.tail = some port)
    (hfw : addRuleOk fwOut = true)
    (hdisc : env.discover = PyRes.ok d) (hd0 : (d == 0) = false)
    (hsel : env.selectigd = PyRes.ok ())
    (hip : env.externalip = PyRes.ok ip)
    (hmap : env.addmapping = PyRes.ok true) :
    run_public s params fwOut env =
      ⟨⟨some (), some port, some proto', some (ruleName port proto')⟩,
       [ExtCall.netshAddRule (ruleName port proto') proto' port,
        ExtCall.upnpDiscover, ExtCall.upnpAddPortMapping port proto'],
       PublicOutcome.exposedOk ip port⟩ := by
  simp only [run_public]
  rw [hp]
  cases fwOut <;>
    simp_all [add_firewall_rule, setup_upnp, addRuleOk] <;>
    rw [if_neg (by omega), if_neg (by tauto)]

/-- C6 fails as stated: `public TCP --port:0` (port 0 accepted because
positivity is never validated) exposes successfully and records the mapping,
but the teardown's truthiness guard skips the mapping deletion — only the
rule deletion is issued, so no mapping deletion precedes it. -/
theorem C6_counterexample :
    (run_public initialState ["TCP", "--port:0"] RunOutcome.ok
      ⟨PyRes.ok 1, PyRes.ok (), PyRes.ok "203.0.113.7", PyRes.ok true⟩).outcome =
      PublicOutcome.exposedOk "203.0.113.7" 0 ∧
    (cleanup_upnp (run_public initialState ["TCP", "--port:0"] RunOutcome.ok
        ⟨PyRes.ok 1, PyRes.ok (), PyRes.ok "203.0.113.7", PyRes.ok true⟩).state
      PyOutcome.ok RunOutcome.ok).calls =
      [ExtCall.netshDeleteRule "MiniShell_0_TCP"] := by decide

/-- C6 amended: a successful `public` lifecycle whose mapped port is nonzero
records `(port, PROTO)` and the rule name `MiniShell_<port>_<PROTO>`
(protocol uppercased by the entry point), and the subsequent teardown issues
the mapping deletion first and the rule deletion second, targeting exactly
the identifiers used at creation; at port 0 the mapping deletion is skipped
by the truthiness guard. -/
theorem C6_lifecycle_release_ordering (s : ShellState) (params : List String)
    (fwOut : RunOutcome) (env : UpnpEnv) (port : Int) (d : Nat) (ip : String)
    (mo : PyOutcome) (ro : RunOutcome)
    (hlen : ¬ params.length < 2)
    (hproto : pyUpper (params.headD "") = "TCP" ∨ pyUpper (params.headD "") = "UDP")
    (hport : findPort params.tail = some port)
    (hnz : port ≠ 0)
    (hfw : addRuleOk fwOut = true)
    (hdisc : env.discover = PyRes.ok d) (hd : d ≠ 0)
    (hsel : env.selectigd = PyRes.ok ())
    (hip : env.externalip = PyRes.ok ip)
    (hmap : env.addmapping = PyRes.ok true) :
    (run_public s params fwOut env).outcome = PublicOutcome.exposedOk ip port ∧
    (run_public s params fwOut env).calls =
      [ExtCall.netshAddRule (ruleName port (pyUpper (params.headD "")))
         (pyUpper (params.headD "")) port,
       ExtCall.upnpDiscover,
       ExtCall.upnpAddPortMapping port (pyUpper (params.headD ""))] ∧
    (cleanup_upnp (run_public s params fwOut env).state mo ro).calls =
      [ExtCall.deletePortMapping port (pyUpper (params.headD "")),
       ExtCall.netshDeleteRule (ruleName port (pyUpper (params.headD "")))] := by
  have hp0 : (port == 0) = false := by simp [hnz]
  have hd0 : (d == 0) = false := by simp [hd]
  rcases hproto with hp | hp
  · have hrun := run_public_success s params fwOut env port d ip "TCP" hlen hp
      (by decide) hport hfw hdisc hd0 hsel hip hmap
    rw [hp, hrun]
    exact ⟨rfl, rfl,
      cleanup_full_calls port "TCP" (ruleName port "TCP") mo ro hp0 (by decide)
        (ruleName_beq_empty_false port "TCP")⟩
  · have hrun := run_public_success s params fwOut env port d ip "UDP" hlen hp
      (by decide) hport hfw hdisc hd0 hsel hip hmap
    rw [hp, hrun]
    exact ⟨rfl, rfl,
      cleanup_full_calls port "UDP" (ruleName port "UDP") mo ro hp0 (by decide)
        (ruleName_beq_empty_false port "UDP")⟩

/-- Witness for the C6 theorem: `public tcp --port:8080` against an
accepting gateway, then one teardown. -/
theorem C6_lifecycle_release_ordering_witness :
    (run_public initialState ["tcp", "--port:8080"] RunOutcome.ok
      ⟨PyRes.ok 1, PyRes.ok (), PyRes.ok "203.0.113.7", PyRes.ok true⟩).outcome =
      PublicOutcome.exposedOk "203.0.113.7" 8080 ∧
    (run_public initialState ["tcp", "--port:8080"] RunOutcome.ok
      ⟨PyRes.ok 1, PyRes.ok (), PyRes.ok "203.0.113.7", PyRes.ok true⟩).calls =
      [ExtCall.netshAddRule (ruleName 8080 (pyUpper (["tcp", "--port:8080"].headD "")))
         (pyUpper (["tcp", "--port:8080"].headD "")) 8080,
       ExtCall.upnpDiscover,
       ExtCall.upnpAddPortMapping 8080 (pyUpper (["tcp", "--port:8080"].headD ""))] ∧
    (cleanup_upnp (run_public initialState ["tcp", "--port:8080"] RunOutcome.ok
        ⟨PyRes.ok 1, PyRes.ok (), PyRes.ok "203.0.113.7", PyRes.ok true⟩).state
      PyOutcome.ok RunOutcome.ok).calls =
      [ExtCall.deletePortMapping 8080 (pyUpper (["tcp", "--port:8080"].headD "")),
       ExtCall.netshDeleteRule (ruleName 8080 (pyUpper (["tcp", "--port:8080"].headD "")))] :=
  C6_lifecycle_release_ordering initialState ["tcp", "--port:8080"]
    RunOutcome.ok ⟨PyRes.ok 1, PyRes.ok (), PyRes.ok "203.0.113.7", PyRes.ok true⟩
    8080 1 "203.0.113.7" PyOutcome.ok RunOutcome.ok
    (by decide) (Or.inl (by decide)) (by decide) (by decide) rfl
    rfl (by decide) rfl rfl rfl

/-- C8: with both resources recorded, a teardown whose mapping deletion
raises and whose rule deletion fails with a `CalledProcessError` classifies
a `NoSuchEntryInArray` message as already-absent and any other as a reported
error, then still proceeds to the rule deletion, whose stderr is classified
as already-absent when the no-rules-match patterns occur and as a reported
error otherwise; both deletions are attempted, in order, and nothing
escalates. -/
theorem C8_teardown_failure_classification (port : Int)
    (proto name msg stderr : String)
    (hp : (port == 0) = false) (hq : (proto == "") = false)
    (hn : (name == "") = false) :
    cleanup_upnp ⟨some (), some port, some proto, some name⟩
      (PyOutcome.exc msg) (RunOutcome.cpe stderr) =
    ⟨initialState,
     [ExtCall.deletePortMapping port proto, ExtCall.netshDeleteRule name],
     [if noSuchEntry msg then Report.mappingAlreadyAbsent port proto
      else Report.mappingDeleteError msg,
      if noRulesMatch stderr then Report.ruleAlreadyAbsent name
      else Report.ruleDeleteError stderr], none⟩ := by
  simp [cleanup_upnp, cleanupMappingStep, cleanupRuleStep, truthyOptUnit,
    truthyOptStr, initialState, hp, hq, hn]

/-- Witness for the C8 theorem: an already-gone mapping and a hard
rule-deletion error. -/
theorem C8_teardown_failure_classification_witness :
    cleanup_upnp ⟨some (), some 8080, some "TCP", some "MiniShell_8080_TCP"⟩
      (PyOutcome.exc "UPnPError 714 NoSuchEntryInArray")
      (RunOutcome.cpe "Access is denied.") =
    ⟨initialState,
     [ExtCall.deletePortMapping 8080 "TCP",
      ExtCall.netshDeleteRule "MiniShell_8080_TCP"],
     [Report.mappingAlreadyAbsent 8080 "TCP",
      Report.ruleDeleteError "Access is denied."], none⟩ := by
  have h := C8_teardown_failure_classification 8080 "TCP" "MiniShell_8080_TCP"
    "UPnPError 714 NoSuchEntryInArray" "Access is denied."
    (by decide) (by decide) (by decide)
  exact h.trans (by decide)

/-- C10 fails as stated: `public TCP --port:0` (accepted because positivity
is never validated) records a mapping whose port `0` is falsy to Python, so
a terminating `cleanup_upnp` call skips the mapping branch and leaves
`upnp_instance`, `mapped_port` and `mapped_proto` populated. -/
theorem C10_counterexample :
    (run_public initialState ["TCP", "--port:0"] RunOutcome.ok
      ⟨PyRes.ok 1, PyRes.ok (), PyRes.ok "203.0.113.7", PyRes.ok true⟩).state =
      ⟨some (), some 0, some "TCP", some "MiniShell_0_TCP"⟩ ∧
    cleanup_upnp ⟨some (), some 0, some "TCP", some "MiniShell_0_TCP"⟩
      PyOutcome.ok RunOutcome.ok =
      ⟨⟨some (), some 0, some "TCP", none⟩,
       [ExtCall.netshDeleteRule "MiniShell_0_TCP"], [Report.ruleRemoved],
       none⟩ := by decide

/-- C10 amended: for every coherent session state (the mapping globals set
together with a truthy port and protocol or not at all, the rule name
nonempty when set — the states straight-line runs with nonzero ports
produce), any `cleanup_upnp` call leaves all four globals `None`, whatever
the two deletion outcomes, because each branch clears its fields in a
`finally` block. -/
theorem C10_teardown_clears_session (s : ShellState) (mo : PyOutcome)
    (ro : RunOutcome) (h : sessionCoherent s = true) :
    (cleanup_upnp s mo ro).state = initialState := by
  obtain ⟨u, p, pr, f⟩ := s
  cases u <;> cases p <;> cases pr <;> cases f <;>
    simp_all [sessionCoherent] <;>
    cases ro <;>
    simp_all [cleanup_upnp, cleanupMappingStep, cleanupRuleStep, truthyOptUnit,
      truthyOptInt, truthyOptStr, initialState]

/-- Witness for the amended C10 theorem: even when both deletions fail (the
rule one with a propagating exception), the session ends fully cleared. -/
theorem C10_teardown_clears_session_witness :
    (cleanup_upnp ⟨some (), some 8080, some "TCP", some "MiniShell_8080_TCP"⟩
      (PyOutcome.exc "err") (RunOutcome.exc "FileNotFoundError: netsh")).state =
      initialState :=
  C10_teardown_clears_session _ _ _ (by decide)
